import Mathlib

/-!
Shallow embedding of the Schnorr-style zero-knowledge authentication core of
the Citibank-Backend repository (`app/api/v1/endpoints/auth.py`), together
with proofs of the specified properties.

Modelling conventions:
* The durable user table (`users`, SQLAlchemy) is a list of `User` records;
  `SELECT ... WHERE username = _ ... first()` is a first-match lookup.
* The Redis challenge store is an association list from key strings to the
  JSON payload stored by `get_challenge` (fields `c`, `username`, `clientR`).
  `SETEX` inserts/overwrites, `DELETE` removes; the TTL only ever removes
  entries, which is represented by quantifying over store contents.
* Group parameters `P`, `Q`, `G` come from `ZKP_CRYPTO_CONFIG`
  (`app/core/crypto/config.py`, not part of the tree) and are therefore
  passed as explicit arguments.
* `hashlib.sha256(...).hexdigest()` and `jwt.encode` are external library
  calls: the hash is an abstract function argument `sha256hex`, and a token
  is modelled by its payload `{sub, exp}` (the signing step is injective
  bookkeeping that the protocol never inspects).
* Python's `int(s, 16)` is modelled by `pyIntHex?` (strip whitespace, an
  optional sign, an optional `0x`/`0X` prefix, then a nonempty run of hex
  digits; underscore digit separators are not modelled), returning `none`
  exactly where Python raises `ValueError`.
* Python's three-argument `pow` is modelled by `pypow`, returning `none`
  where Python raises `ValueError` (zero modulus, or a negative exponent
  with a base that is not invertible).  Inside `verify_proof` both kinds of
  `ValueError` are caught by the same `except ValueError` handler.
-/

set_option autoImplicit false

namespace ZKAuth

/-- Row of the `users` table (`app/models/user.py`): username (unique key),
public key `Y` as a hex string, and an opaque salt. -/
structure User where
  username : String
  public_key_y : String
  salt : String
deriving DecidableEq

/-- JSON payload stored in Redis by `get_challenge`: the challenge value `c`
(hex digest), the bound username, and the client commitment `R`. -/
structure StoredChallenge where
  c : String
  username : String
  clientR : String
deriving DecidableEq

/-- The durable identity registry (the `users` table). -/
abbrev Registry := List User

/-- The ephemeral challenge store (Redis), keyed by `"challenge:" ++ id`. -/
abbrev Store := List (String × StoredChallenge)

/-- `SELECT User WHERE username == name ... .first()`. -/
def findUser (db : Registry) (name : String) : Option User :=
  db.find? (fun u => u.username == name)

/-- `redis.get key`. -/
def storeGet (store : Store) (key : String) : Option StoredChallenge :=
  (store.find? (fun kv => kv.fst == key)).map Prod.snd

/-- `redis.setex key ttl value` (the TTL itself is not part of the state
model; expiry is represented by quantifying over store contents). -/
def storeSet (store : Store) (key : String) (v : StoredChallenge) : Store :=
  (key, v) :: store.filter (fun kv => kv.fst != key)

/-- `redis.delete key`. -/
def storeDelete (store : Store) (key : String) : Store :=
  store.filter (fun kv => kv.fst != key)

/-- The HTTP error taxonomy of the three endpoints, one constructor per
distinct `HTTPException` raised in `auth.py`. -/
inductive AuthError where
  | duplicateIdentity
  | identityNotFound
  | challengeInvalid
  | usernameMismatch
  | malformedInput
  | invalidProof
deriving DecidableEq

/-- HTTP status code attached to each error in `auth.py`. -/
def AuthError.status : AuthError → Nat
  | .duplicateIdentity => 400
  | .identityNotFound => 404
  | .challengeInvalid => 400
  | .usernameMismatch => 400
  | .malformedInput => 400
  | .invalidProof => 401

/-- `detail` string attached to each error in `auth.py`. -/
def AuthError.detail : AuthError → String
  | .duplicateIdentity => "Username already registered"
  | .identityNotFound => "User not found"
  | .challengeInvalid => "Challenge expired or invalid"
  | .usernameMismatch => "Username mismatch"
  | .malformedInput => "Invalid hex format"
  | .invalidProof => "Invalid proof"

/-- Characters stripped by Python's `int(s, 16)` around the literal. -/
def isPySpace (ch : Char) : Bool :=
  ch == ' ' || ch == '\t' || ch == '\n' || ch == '\r' ||
    ch == (Char.ofNat 11) || ch == (Char.ofNat 12)

/-- Hexadecimal digit test (both cases), as accepted by `int(s, 16)`. -/
def isHexDigitChar (ch : Char) : Bool :=
  ('0' ≤ ch && ch ≤ '9') || ('a' ≤ ch && ch ≤ 'f') || ('A' ≤ ch && ch ≤ 'F')

/-- Numeric value of a hexadecimal digit. -/
def hexDigitVal (ch : Char) : Nat :=
  if '0' ≤ ch && ch ≤ '9' then ch.toNat - '0'.toNat
  else if 'a' ≤ ch && ch ≤ 'f' then ch.toNat - 'a'.toNat + 10
  else ch.toNat - 'A'.toNat + 10

/-- Accumulate the value of a run of hex digits; `none` on a non-digit. -/
def hexDigitsVal? (cs : List Char) : Option Nat :=
  cs.foldl
    (fun acc ch =>
      match acc with
      | none => none
      | some n => if isHexDigitChar ch then some (n * 16 + hexDigitVal ch) else none)
    (some 0)

/-- Python's `int(s, 16)`: strip surrounding whitespace, then an optional
sign, an optional `0x`/`0X` prefix, then at least one hex digit.  `none`
models `ValueError`. -/
def pyIntHex? (s : String) : Option Int :=
  let t := ((s.toList.dropWhile isPySpace).reverse.dropWhile isPySpace).reverse
  let signed : Int × List Char :=
    match t with
    | '+' :: rest => (1, rest)
    | '-' :: rest => (-1, rest)
    | _ => (1, t)
  let body : List Char :=
    match signed.snd with
    | '0' :: 'x' :: rest => rest
    | '0' :: 'X' :: rest => rest
    | rest => rest
  match body with
  | [] => none
  | _ => (hexDigitsVal? body).map (fun n => signed.fst * (n : Int))

/-- Modular inverse of `b` modulo `m` for coprime `b`, via Euler's theorem
(CPython computes it with extended gcd; the value agrees on coprime inputs). -/
def modInverse (b m : Nat) : Nat :=
  b ^ (Nat.totient m - 1) % m

/-- Python's `pow(b, e, m)`: `none` models the `ValueError` raised on a zero
modulus or on a negative exponent whose base is not invertible mod `m`. -/
def pypow (b e : Int) (m : Nat) : Option Int :=
  if m = 0 then none
  else if 0 ≤ e then some (b ^ e.toNat % (m : Int))
  else
    let base := (b % (m : Int)).toNat
    if Nat.gcd base m = 1 then
      some ((modInverse base m : Int) ^ e.natAbs % (m : Int))
    else none

/-- Request body of `POST /register` (`schemas/auth.py`). -/
structure UserRegister where
  username : String
  publicKeyY : String
  salt : String
deriving DecidableEq

/-- Response body of `POST /register`. -/
structure UserRegisterResponse where
  username : String
  message : String
deriving DecidableEq

/-- Request body of `POST /challenge`. -/
structure ChallengeRequest where
  username : String
  clientR : String
deriving DecidableEq

/-- Response body of `POST /challenge`. -/
structure ChallengeResponse where
  challengeId : String
  c : String
  p : String
  q : String
  g : String
deriving DecidableEq

/-- Request body of `POST /verify`. -/
structure VerifyRequest where
  challengeId : String
  s : String
  clientR : String
  username : String
deriving DecidableEq

/-- Payload of the JWT issued on success: `{"sub": username, "exp": time}`.
The signature wrapper is external (`jose.jwt.encode`) and never inspected by
the protocol, so the token is identified with its payload. -/
structure TokenPayload where
  sub : String
  exp : Nat
deriving DecidableEq

/-- Response body of `POST /verify`. -/
structure VerifyResponse where
  token : TokenPayload
  type : String
  expiresIn : Nat
deriving DecidableEq

/-- `create_access_token` of `auth.py`: expiry is `now + expires_delta` when
a delta is passed, else `now` plus the configured
`ACCESS_TOKEN_EXPIRE_MINUTES`.  Times are in seconds. -/
def create_access_token (accessTokenExpireMinutes : Nat) (now : Nat)
    (sub : String) (expires_delta : Option Nat) : TokenPayload :=
  match expires_delta with
  | some d => { sub := sub, exp := now + d }
  | none => { sub := sub, exp := now + accessTokenExpireMinutes * 60 }

/-- `POST /register` (`register` in `auth.py`): reject an existing username
with 400 "Username already registered", otherwise append the new row and
confirm.  Returns the outcome together with the updated registry. -/
def register (db : Registry) (user_in : UserRegister) :
    Except AuthError UserRegisterResponse × Registry :=
  match findUser db user_in.username with
  | some _ => (.error .duplicateIdentity, db)
  | none =>
    let new_user : User :=
      { username := user_in.username
        public_key_y := user_in.publicKeyY
        salt := user_in.salt }
    (.ok { username := new_user.username, message := "User registered successfully" },
      db ++ [new_user])

/-- `POST /challenge` (`get_challenge` in `auth.py`): look the user up,
hash `clientR ++ Y ++ username`, store `{c, username, clientR}` in Redis
under a fresh id, and return the challenge with the group parameters.
`sha256hex` abstracts `hashlib.sha256(payload.encode()).hexdigest()`; the
fresh UUID and the configured group parameter strings are arguments. -/
def get_challenge (sha256hex : String → String) (groupP groupQ groupG : String)
    (challenge_id : String) (db : Registry) (store : Store)
    (request : ChallengeRequest) :
    Except AuthError ChallengeResponse × Store :=
  match findUser db request.username with
  | none => (.error .identityNotFound, store)
  | some user =>
    let payload := request.clientR ++ user.public_key_y ++ user.username
    let c_hex := sha256hex payload
    let redis_key := "challenge:" ++ challenge_id
    let store1 := storeSet store redis_key
      { c := c_hex, username := user.username, clientR := request.clientR }
    (.ok { challengeId := challenge_id, c := c_hex,
           p := groupP, q := groupQ, g := groupG }, store1)

/-- Everything `verify_proof` does after the `redis.get`: username binding
check, identity lookup, the `try` block parsing `s`, `R`, `Y`, `c` and
evaluating `g^s mod p` against `(R * Y^c) mod p`, and on success the
`redis.delete` plus token issuance with a literal 86400-second delta. -/
def verify_afterRead (P : Nat) (G : Int) (accessTokenExpireMinutes : Nat)
    (now : Nat) (db : Registry) (store : Store) (redis_key : String)
    (stored_data : StoredChallenge) (request : VerifyRequest) :
    Except AuthError VerifyResponse × Store :=
  if stored_data.username != request.username then
    (.error .usernameMismatch, store)
  else
    match findUser db request.username with
    | none => (.error .identityNotFound, store)
    | some user =>
      let tryBlock : Option (Int × Int × Int) := do
        let s_int ← pyIntHex? request.s
        let r_int ← pyIntHex? request.clientR
        let y_int ← pyIntHex? user.public_key_y
        let c_int ← pyIntHex? stored_data.c
        let lhs ← pypow G s_int P
        let y_c ← pypow y_int c_int P
        pure (lhs, r_int, y_c)
      match tryBlock with
      | none => (.error .malformedInput, store)
      | some (lhs, r_int, y_c) =>
        let rhs := (r_int * y_c) % (P : Int)
        if lhs != rhs then (.error .invalidProof, store)
        else
          let store1 := storeDelete store redis_key
          let token := create_access_token accessTokenExpireMinutes now
            user.username (some 86400)
          (.ok { token := token, type := "Bearer", expiresIn := 86400 }, store1)

/-- `POST /verify` (`verify_proof` in `auth.py`): fetch the stored challenge
(absent ⇒ 400 "Challenge expired or invalid"), then run `verify_afterRead`.
The split at the `redis.get` mirrors the `await` boundary in the source. -/
def verify_proof (P : Nat) (G : Int) (accessTokenExpireMinutes : Nat)
    (now : Nat) (db : Registry) (store : Store) (request : VerifyRequest) :
    Except AuthError VerifyResponse × Store :=
  let redis_key := "challenge:" ++ request.challengeId
  match storeGet store redis_key with
  | none => (.error .challengeInvalid, store)
  | some stored_data =>
    verify_afterRead P G accessTokenExpireMinutes now db store redis_key
      stored_data request

/-- The verifier's group equation exactly as computed in `verify_proof`
(lines 186–191): `g^s mod p` against `(R * (Y^c mod p)) mod p`, on the
nonnegative integers produced by parsing well-formed hex. -/
def verificationEquationHolds (p g s r y c : Nat) : Bool :=
  g ^ s % p == (r * (y ^ c % p)) % p

/-! Concrete data for the worked toy scenario of the spec (§8): group
`p = 23, q = 11, g = 4`, user `alice` with `Y = 18` (hex `"12"`),
commitment `R = 12` (hex `"c"`), stored challenge `c = 7`. -/

/-- Registered toy identity: `alice` with public key `Y = 18` (hex `"12"`). -/
def aliceUser : User := { username := "alice", public_key_y := "12", salt := "s0" }

/-- Toy registry holding only `alice`. -/
def toyDb : Registry := [aliceUser]

/-- Toy stored challenge: `c = 7`, bound to `alice` and commitment hex `"c"`. -/
def toyEntry : StoredChallenge := { c := "7", username := "alice", clientR := "c" }

/-- Toy challenge store with one entry under id `ch1`. -/
def toyStore : Store := [("challenge:ch1", toyEntry)]

/-- Toy verify request with the correct response `s = 4`. -/
def toyReq : VerifyRequest :=
  { challengeId := "ch1", s := "4", clientR := "c", username := "alice" }

/-- Response issued for the toy request at time `now = 0`. -/
def toyResp : VerifyResponse :=
  { token := { sub := "alice", exp := 86400 }, type := "Bearer", expiresIn := 86400 }

/-! Helper lemmas about the store, the registry lookup, and modular
exponentiation. -/

/-- Deleting a key removes it: a lookup of the same key finds nothing. -/
theorem storeGet_storeDelete_self (s : Store) (k : String) :
    storeGet (storeDelete s k) k = none := by
  induction s with
  | nil => rfl
  | cons hd tl ih =>
    simp only [storeDelete, List.filter_cons] at *
    cases h : (hd.fst != k)
    · simpa [h] using ih
    · simp only [if_pos rfl, storeGet, List.find?]
      have h2 : (hd.fst == k) = false := by
        cases h3 : (hd.fst == k)
        · rfl
        · rw [bne, h3] at h
          exact absurd h (by simp)
      rw [h2]
      simp only [storeGet] at ih
      exact ih

/-- Inserting under a key makes that key look up the inserted value. -/
theorem storeGet_storeSet_self (s : Store) (k : String) (v : StoredChallenge) :
    storeGet (storeSet s k v) k = some v := by
  simp [storeGet, storeSet, List.find?]

/-- A successful registry lookup returns a row whose username is the key. -/
theorem findUser_username_eq (db : Registry) (n : String) (u : User)
    (h : findUser db n = some u) : u.username = n := by
  have := List.find?_some h
  exact eq_of_beq this

/-- In a group where `g^q mod p = 1`, exponents can be reduced mod `q`. -/
theorem pow_mod_cycle (p q g a : Nat) (hp : 1 < p) (h : g ^ q % p = 1) :
    g ^ a % p = g ^ (a % q) % p := by
  conv_lhs => rw [← Nat.div_add_mod a q]
  rw [pow_add, pow_mul, Nat.mul_mod, Nat.pow_mod, h, one_pow,
    Nat.mod_eq_of_lt hp, one_mul, Nat.mod_mod_of_dvd _ dvd_rfl]

/-- C1: completeness of the proof verifier.  For every secret `x ∈ [1, q−1]`,
nonce `r ∈ [1, q−1]`, and challenge value `c`, with `Y = g^x mod p` and
`R = g^r mod p`, the response `s = (r + c·x) mod q` satisfies the verifier's
equation `g^s mod p = (R · Y^c) mod p`, given the group invariant
`g^q ≡ 1 (mod p)`, `g ≠ 1` (and `p > 1`, as `p` is a large prime). -/
theorem C1_verifier_completeness (p q g x r c : Nat)
    (hp : 1 < p) (hinv : g ^ q % p = 1) (_hg1 : g ≠ 1)
    (_hx1 : 1 ≤ x) (_hx2 : x ≤ q - 1) (_hr1 : 1 ≤ r) (_hr2 : r ≤ q - 1) :
    verificationEquationHolds p g ((r + c * x) % q) (g ^ r % p) (g ^ x % p) c
      = true := by
  rw [verificationEquationHolds, beq_iff_eq]
  rw [← pow_mod_cycle p q g (r + c * x) hp hinv]
  rw [← Nat.pow_mod, ← pow_mul, ← Nat.mul_mod, ← pow_add, Nat.mul_comm x c]

/-- Witness for C1 at the spec's toy values `p = 23, q = 11, g = 4, x = 3,
r = 5, c = 7`. -/
theorem C1_verifier_completeness_witness :
    verificationEquationHolds 23 4 ((5 + 7 * 3) % 11) (4 ^ 5 % 23) (4 ^ 3 % 23) 7
      = true :=
  C1_verifier_completeness 23 11 4 3 5 7 (by decide) (by decide) (by decide)
    (by decide) (by decide) (by decide) (by decide)

/-- C6: the spec's concrete worked scenario.  With `p = 23, q = 11, g = 4`,
`Y = 18`, `R = 12`, stored challenge `c = 7`: the response `s = 4` satisfies
the equation (both sides are `3`) and `verify_proof` accepts, while `s = 5`
gives a left side of `12 ≠ 3` and `verify_proof` rejects with
`InvalidProof`. -/
theorem C6_worked_scenario :
    (verify_proof 23 4 30 0 toyDb toyStore toyReq).fst = Except.ok toyResp
    ∧ 4 ^ 4 % 23 = 3
    ∧ (12 * (18 ^ 7 % 23)) % 23 = 3
    ∧ verificationEquationHolds 23 4 4 12 18 7 = true
    ∧ (verify_proof 23 4 30 0 toyDb toyStore { toyReq with s := "5" }).fst
        = Except.error AuthError.invalidProof
    ∧ 4 ^ 5 % 23 = 12
    ∧ verificationEquationHolds 23 4 5 12 18 7 = false :=
  ⟨rfl, by decide, by decide, by decide, rfl, by decide, by decide⟩

/-- Step 1 of verification: an absent challenge entry fails with
`ChallengeInvalid` and leaves the store unchanged. -/
theorem verify_proof_get_none (P : Nat) (G : Int) (m now : Nat) (db : Registry)
    (store : Store) (req : VerifyRequest)
    (h : storeGet store ("challenge:" ++ req.challengeId) = none) :
    verify_proof P G m now db store req = (Except.error AuthError.challengeInvalid, store) := by
  simp only [verify_proof]
  rw [h]

/-- Step 1 of verification: a present challenge entry hands the stored data
to the rest of the handler. -/
theorem verify_proof_get_some (P : Nat) (G : Int) (m now : Nat) (db : Registry)
    (store : Store) (req : VerifyRequest) (sd : StoredChallenge)
    (h : storeGet store ("challenge:" ++ req.challengeId) = some sd) :
    verify_proof P G m now db store req =
      verify_afterRead P G m now db store ("challenge:" ++ req.challengeId) sd req := by
  simp only [verify_proof]
  rw [h]

/-- After a successful read, verification either succeeds (deleting exactly
the challenge key) or fails with one of the four later errors, leaving the
store untouched. -/
theorem verify_afterRead_cases (P : Nat) (G : Int) (m now : Nat) (db : Registry)
    (store : Store) (key : String) (sd : StoredChallenge) (req : VerifyRequest) :
    (∃ resp, verify_afterRead P G m now db store key sd req =
        (Except.ok resp, storeDelete store key)) ∨
    (∃ e, verify_afterRead P G m now db store key sd req = (Except.error e, store) ∧
       (e = AuthError.usernameMismatch ∨ e = AuthError.identityNotFound ∨
        e = AuthError.malformedInput ∨ e = AuthError.invalidProof)) := by
  simp only [verify_afterRead]
  repeat' split
  · exact Or.inr ⟨_, ⟨rfl, Or.inl rfl⟩⟩
  · exact Or.inr ⟨_, ⟨rfl, Or.inr (Or.inl rfl)⟩⟩
  · exact Or.inr ⟨_, ⟨rfl, Or.inr (Or.inr (Or.inl rfl))⟩⟩
  · exact Or.inr ⟨_, ⟨rfl, Or.inr (Or.inr (Or.inr rfl))⟩⟩
  · exact Or.inl ⟨_, rfl⟩

/-- Step 2: a username differing from the bound one fails with
`UsernameMismatch`. -/
theorem verify_afterRead_mismatch (P : Nat) (G : Int) (m now : Nat) (db : Registry)
    (store : Store) (key : String) (sd : StoredChallenge) (req : VerifyRequest)
    (hu : sd.username ≠ req.username) :
    verify_afterRead P G m now db store key sd req =
      (Except.error AuthError.usernameMismatch, store) := by
  simp [verify_afterRead, hu]

/-- Step 3: a missing identity fails with `IdentityNotFound`. -/
theorem verify_afterRead_noUser (P : Nat) (G : Int) (m now : Nat) (db : Registry)
    (store : Store) (key : String) (sd : StoredChallenge) (req : VerifyRequest)
    (hu : sd.username = req.username) (hf : findUser db req.username = none) :
    verify_afterRead P G m now db store key sd req =
      (Except.error AuthError.identityNotFound, store) := by
  simp [verify_afterRead, hu, hf]

/-- Step 4: if any of `s`, the submitted `R`, or the stored `Y` fails to
parse as hex, verification fails with `MalformedInput`. -/
theorem verify_afterRead_malformed (P : Nat) (G : Int) (m now : Nat) (db : Registry)
    (store : Store) (key : String) (sd : StoredChallenge) (req : VerifyRequest)
    (user : User) (hu : sd.username = req.username)
    (hf : findUser db req.username = some user)
    (hnone : pyIntHex? req.s = none ∨ pyIntHex? req.clientR = none ∨
      pyIntHex? user.public_key_y = none) :
    verify_afterRead P G m now db store key sd req =
      (Except.error AuthError.malformedInput, store) := by
  rcases hnone with h | h | h
  · simp [verify_afterRead, hu, hf, h]
  · cases hs : pyIntHex? req.s <;> simp [verify_afterRead, hu, hf, h, hs]
  · cases hs : pyIntHex? req.s <;> cases hr : pyIntHex? req.clientR <;>
      simp [verify_afterRead, hu, hf, h, hs, hr]

/-- Step 5: once everything parses, the outcome is decided solely by the
group equation on the parsed values, with the stored challenge value `c` and
the submitted commitment `R`. -/
theorem verify_afterRead_parsed (P : Nat) (G : Int) (m now : Nat) (db : Registry)
    (store : Store) (key : String) (sd : StoredChallenge) (req : VerifyRequest)
    (user : User) (sInt rInt yInt cInt lhs y_c : Int)
    (hu : sd.username = req.username)
    (hf : findUser db req.username = some user)
    (hs : pyIntHex? req.s = some sInt)
    (hr : pyIntHex? req.clientR = some rInt)
    (hy : pyIntHex? user.public_key_y = some yInt)
    (hc : pyIntHex? sd.c = some cInt)
    (hl : pypow G sInt P = some lhs)
    (hyc : pypow yInt cInt P = some y_c) :
    verify_afterRead P G m now db store key sd req =
      (if lhs != (rInt * y_c) % (P : Int)
       then (Except.error AuthError.invalidProof, store)
       else (Except.ok { token := { sub := user.username, exp := now + 86400 },
                         type := "Bearer", expiresIn := 86400 },
             storeDelete store key)) := by
  simp [verify_afterRead, hu, hf, hs, hr, hy, hc, hl, hyc, create_access_token]

/-- The configured default expiry plays no role after the read. -/
theorem verify_afterRead_m_invariant (P : Nat) (G : Int) (m m2 now : Nat)
    (db : Registry) (store : Store) (key : String) (sd : StoredChallenge)
    (req : VerifyRequest) :
    verify_afterRead P G m now db store key sd req =
      verify_afterRead P G m2 now db store key sd req := by
  simp only [verify_afterRead, create_access_token]

/-- `verify_proof` is independent of the configured
`ACCESS_TOKEN_EXPIRE_MINUTES` setting. -/
theorem verify_proof_m_invariant (P : Nat) (G : Int) (m m2 now : Nat)
    (db : Registry) (store : Store) (req : VerifyRequest) :
    verify_proof P G m now db store req = verify_proof P G m2 now db store req := by
  cases h : storeGet store ("challenge:" ++ req.challengeId) with
  | none => rw [verify_proof_get_none P G m now db store req h,
      verify_proof_get_none P G m2 now db store req h]
  | some sd => rw [verify_proof_get_some P G m now db store req sd h,
      verify_proof_get_some P G m2 now db store req sd h,
      verify_afterRead_m_invariant P G m m2 now]

/-- C2: challenge single-use via consumption exactly on success.  A
successful verification leaves the store with the challenge key deleted, so
every subsequent verify request carrying the same challengeId fails with
`ChallengeInvalid` (whatever its other fields, group parameters, or
registry); a failed verification attempt returns the store unchanged, so
the same challengeId can be retried. -/
theorem C2_single_use (P : Nat) (G : Int) (m now : Nat) (db : Registry)
    (store : Store) (req : VerifyRequest) :
    (∀ resp store1, verify_proof P G m now db store req = (Except.ok resp, store1) →
      store1 = storeDelete store ("challenge:" ++ req.challengeId) ∧
      (∀ (P2 : Nat) (G2 : Int) (m2 now2 : Nat) (db2 : Registry) (req2 : VerifyRequest),
        req2.challengeId = req.challengeId →
        verify_proof P2 G2 m2 now2 db2 store1 req2 =
          (Except.error AuthError.challengeInvalid, store1))) ∧
    (∀ e store1, verify_proof P G m now db store req = (Except.error e, store1) →
      store1 = store) := by
  constructor
  · intro resp store1 h
    cases hg : storeGet store ("challenge:" ++ req.challengeId) with
    | none =>
      rw [verify_proof_get_none P G m now db store req hg] at h
      simp at h
    | some sd =>
      rw [verify_proof_get_some P G m now db store req sd hg] at h
      rcases verify_afterRead_cases P G m now db store
          ("challenge:" ++ req.challengeId) sd req with ⟨r0, hok⟩ | ⟨e0, herr, _⟩
      · rw [hok] at h
        injection h with h1 h2
        refine ⟨h2.symm, ?_⟩
        intro P2 G2 m2 now2 db2 req2 hid
        have hnone : storeGet store1 ("challenge:" ++ req2.challengeId) = none := by
          rw [hid, ← h2]
          exact storeGet_storeDelete_self store ("challenge:" ++ req.challengeId)
        exact verify_proof_get_none P2 G2 m2 now2 db2 store1 req2 hnone
      · rw [herr] at h
        simp at h
  · intro e store1 h
    cases hg : storeGet store ("challenge:" ++ req.challengeId) with
    | none =>
      rw [verify_proof_get_none P G m now db store req hg] at h
      injection h with h1 h2
      exact h2.symm
    | some sd =>
      rw [verify_proof_get_some P G m now db store req sd hg] at h
      rcases verify_afterRead_cases P G m now db store
          ("challenge:" ++ req.challengeId) sd req with ⟨r0, hok⟩ | ⟨e0, herr, _⟩
      · rw [hok] at h
        simp at h
      · rw [herr] at h
        injection h with h1 h2
        exact h2.symm

/-- C4: verify is total over its error taxonomy with a fixed check order.
Every verify outcome is success or one of `ChallengeInvalid`,
`UsernameMismatch`, `IdentityNotFound`, `MalformedInput`, `InvalidProof`
(never `DuplicateIdentity`, and never an unhandled fault since the model is
a total function); an absent challenge decides `ChallengeInvalid` before
everything else; a bound-username mismatch decides `UsernameMismatch` before
the identity lookup; a missing identity decides `IdentityNotFound` before
parsing; and non-hexadecimal `s`, submitted `R`, or stored `Y` decide
`MalformedInput` before the equation. -/
theorem C4_verify_error_taxonomy (P : Nat) (G : Int) (m now : Nat) (db : Registry)
    (store : Store) (req : VerifyRequest) :
    ((∃ resp, (verify_proof P G m now db store req).fst = Except.ok resp) ∨
     (∃ e, (verify_proof P G m now db store req).fst = Except.error e ∧
        (e = AuthError.challengeInvalid ∨ e = AuthError.usernameMismatch ∨
         e = AuthError.identityNotFound ∨ e = AuthError.malformedInput ∨
         e = AuthError.invalidProof))) ∧
    (storeGet store ("challenge:" ++ req.challengeId) = none →
      (verify_proof P G m now db store req).fst =
        Except.error AuthError.challengeInvalid) ∧
    (∀ sd, storeGet store ("challenge:" ++ req.challengeId) = some sd →
      sd.username ≠ req.username →
      (verify_proof P G m now db store req).fst =
        Except.error AuthError.usernameMismatch) ∧
    (∀ sd, storeGet store ("challenge:" ++ req.challengeId) = some sd →
      sd.username = req.username → findUser db req.username = none →
      (verify_proof P G m now db store req).fst =
        Except.error AuthError.identityNotFound) ∧
    (∀ sd user, storeGet store ("challenge:" ++ req.challengeId) = some sd →
      sd.username = req.username → findUser db req.username = some user →
      (pyIntHex? req.s = none ∨ pyIntHex? req.clientR = none ∨
        pyIntHex? user.public_key_y = none) →
      (verify_proof P G m now db store req).fst =
        Except.error AuthError.malformedInput) := by
  refine ⟨?_, ?_, ?_, ?_, ?_⟩
  · cases hg : storeGet store ("challenge:" ++ req.challengeId) with
    | none =>
      exact Or.inr ⟨AuthError.challengeInvalid,
        ⟨by rw [verify_proof_get_none P G m now db store req hg], Or.inl rfl⟩⟩
    | some sd =>
      rcases verify_afterRead_cases P G m now db store
          ("challenge:" ++ req.challengeId) sd req with ⟨r0, hok⟩ | ⟨e0, herr, hd⟩
      · exact Or.inl ⟨r0, by rw [verify_proof_get_some P G m now db store req sd hg, hok]⟩
      · exact Or.inr ⟨e0,
          ⟨by rw [verify_proof_get_some P G m now db store req sd hg, herr], Or.inr hd⟩⟩
  · intro hg
    rw [verify_proof_get_none P G m now db store req hg]
  · intro sd hg hne
    rw [verify_proof_get_some P G m now db store req sd hg,
      verify_afterRead_mismatch P G m now db store _ sd req hne]
  · intro sd hg hu hf
    rw [verify_proof_get_some P G m now db store req sd hg,
      verify_afterRead_noUser P G m now db store _ sd req hu hf]
  · intro sd user hg hu hf hnone
    rw [verify_proof_get_some P G m now db store req sd hg,
      verify_afterRead_malformed P G m now db store _ sd req user hu hf hnone]

/-- C8: token issuance on successful verification.  Every successful verify
returns token type "Bearer" and `expiresIn = 86400`, the issued token
expires 86400 seconds from issuance time, the token subject is the verified
username, and the outcome is independent of the configured
`ACCESS_TOKEN_EXPIRE_MINUTES`. -/
theorem C8_token_issuance (P : Nat) (G : Int) (m now : Nat) (db : Registry)
    (store : Store) (req : VerifyRequest) (resp : VerifyResponse) (store1 : Store)
    (h : verify_proof P G m now db store req = (Except.ok resp, store1)) :
    resp.type = "Bearer" ∧ resp.expiresIn = 86400 ∧
    resp.token.exp = now + 86400 ∧ resp.token.sub = req.username ∧
    (∀ m2 : Nat, verify_proof P G m2 now db store req = (Except.ok resp, store1)) := by
  have hm : ∀ m2 : Nat, verify_proof P G m2 now db store req = (Except.ok resp, store1) := by
    intro m2
    rw [verify_proof_m_invariant P G m2 m now db store req]
    exact h
  cases hg : storeGet store ("challenge:" ++ req.challengeId) with
  | none =>
    rw [verify_proof_get_none P G m now db store req hg] at h
    simp at h
  | some sd =>
    rw [verify_proof_get_some P G m now db store req sd hg] at h
    simp only [verify_afterRead] at h
    split at h
    · simp at h
    · split at h
      · simp at h
      · rename_i user hf
        split at h
        · simp at h
        · split at h
          · simp at h
          · injection h with h1 h2
            injection h1 with h1
            subst h1
            exact ⟨rfl, rfl, rfl, findUser_username_eq db req.username user hf, hm⟩

/-- C3: the verification equation uses the stored challenge value.  The
handler after the read is entirely independent of the commitment stored at
challenge time; when all guards pass, the outcome is exactly the group
equation evaluated with the challenge value `c` parsed from the stored
entry and the commitment `R` parsed from the verify request; and no
equality check of submitted against stored `R` exists: a request whose
submitted `R` differs from the stored one still verifies. -/
theorem C3_uses_stored_challenge :
    (∀ (P : Nat) (G : Int) (m now : Nat) (db : Registry) (store : Store)
       (key cVal uVal r1 r2 : String) (req : VerifyRequest),
       verify_afterRead P G m now db store key
           { c := cVal, username := uVal, clientR := r1 } req =
         verify_afterRead P G m now db store key
           { c := cVal, username := uVal, clientR := r2 } req) ∧
    (∀ (P : Nat) (G : Int) (m now : Nat) (db : Registry) (store : Store)
       (req : VerifyRequest) (sd : StoredChallenge) (user : User)
       (sInt rInt yInt cInt lhs y_c : Int),
       storeGet store ("challenge:" ++ req.challengeId) = some sd →
       sd.username = req.username →
       findUser db req.username = some user →
       pyIntHex? req.s = some sInt →
       pyIntHex? req.clientR = some rInt →
       pyIntHex? user.public_key_y = some yInt →
       pyIntHex? sd.c = some cInt →
       pypow G sInt P = some lhs →
       pypow yInt cInt P = some y_c →
       (verify_proof P G m now db store req).fst =
         (if lhs != (rInt * y_c) % (P : Int)
          then Except.error AuthError.invalidProof
          else Except.ok { token := { sub := req.username, exp := now + 86400 },
                           type := "Bearer", expiresIn := 86400 })) ∧
    ((verify_proof 23 4 30 0 toyDb
        [("challenge:ch1", { c := "7", username := "alice", clientR := "ff" })]
        toyReq).fst = Except.ok toyResp) := by
  refine ⟨?_, ?_, rfl⟩
  · intro P G m now db store key cVal uVal r1 r2 req
    rfl
  · intro P G m now db store req sd user sInt rInt yInt cInt lhs y_c
      hg hu hf hs hr hy hc hl hyc
    have huser : user.username = req.username :=
      findUser_username_eq db req.username user hf
    have h := verify_afterRead_parsed P G m now db store
      ("challenge:" ++ req.challengeId) sd req user sInt rInt yInt cInt lhs y_c
      hu hf hs hr hy hc hl hyc
    rw [huser] at h
    rw [verify_proof_get_some P G m now db store req sd hg, h, apply_ite Prod.fst]

/-- C5: challenge derivation is a deterministic function of public values.
A successful issuance returns and stores the challenge value
`sha256hex (R ++ Y ++ username)` — the hash of the submitted commitment,
the registered public key, and the username, concatenated in that order —
and any second successful issuance for the same registered user with the
same commitment produces the same value. -/
theorem C5_challenge_derivation (sha256hex : String → String)
    (pS qS gS cid : String) (db : Registry) (store : Store)
    (req : ChallengeRequest) (user : User) (resp : ChallengeResponse)
    (store1 : Store)
    (hf : findUser db req.username = some user)
    (h : get_challenge sha256hex pS qS gS cid db store req = (Except.ok resp, store1)) :
    resp.c = sha256hex (req.clientR ++ user.public_key_y ++ user.username) ∧
    storeGet store1 ("challenge:" ++ cid) =
      some { c := resp.c, username := user.username, clientR := req.clientR } ∧
    (∀ cid2 store2 req2 resp2 store3,
       req2.username = req.username → req2.clientR = req.clientR →
       get_challenge sha256hex pS qS gS cid2 db store2 req2 =
         (Except.ok resp2, store3) →
       resp2.c = resp.c) := by
  simp only [get_challenge, hf] at h
  injection h with h1 h2
  injection h1 with h1
  subst h1
  subst h2
  refine ⟨rfl, storeGet_storeSet_self store ("challenge:" ++ cid) _, ?_⟩
  intro cid2 store2 req2 resp2 store3 hu2 hr2 h2
  simp only [get_challenge] at h2
  rw [hu2, hf] at h2
  injection h2 with h1' h2'
  injection h1' with h1'
  subst h1'
  rw [hr2]

/-- C7: registration contract.  If the username already exists the request
fails with `DuplicateIdentity` and the registry is returned unchanged;
otherwise exactly one identity record `{username, Y, salt}` is appended and
the confirmation names the username. -/
theorem C7_registration (db : Registry) (u : UserRegister) :
    ((∃ w, findUser db u.username = some w) →
       register db u = (Except.error AuthError.duplicateIdentity, db)) ∧
    (findUser db u.username = none →
       register db u =
         (Except.ok { username := u.username,
                      message := "User registered successfully" },
          db ++ [{ username := u.username, public_key_y := u.publicKeyY,
                   salt := u.salt }])) := by
  constructor
  · intro ⟨w, hw⟩
    simp only [register, hw]
  · intro hnone
    simp only [register, hnone]

/-- C10: register and challenge issuance never fail with `MalformedInput`.
Register either succeeds or fails with `DuplicateIdentity`, and on success
stores `publicKeyY` and `salt` verbatim; challenge issuance either succeeds
or fails with `IdentityNotFound`, and on success stores the submitted
commitment verbatim — no hex, range, or group-membership validation happens
at either step. -/
theorem C10_no_validation_before_verify (db : Registry) (u : UserRegister)
    (sha256hex : String → String) (pS qS gS cid : String) (store : Store)
    (req : ChallengeRequest) :
    ((register db u).fst = Except.error AuthError.duplicateIdentity ∨
      (register db u).fst =
        Except.ok { username := u.username,
                    message := "User registered successfully" }) ∧
    (findUser db u.username = none →
      (register db u).snd =
        db ++ [{ username := u.username, public_key_y := u.publicKeyY,
                 salt := u.salt }]) ∧
    ((get_challenge sha256hex pS qS gS cid db store req).fst =
        Except.error AuthError.identityNotFound ∨
      ∃ resp, (get_challenge sha256hex pS qS gS cid db store req).fst =
        Except.ok resp) ∧
    (∀ user, findUser db req.username = some user →
      storeGet (get_challenge sha256hex pS qS gS cid db store req).snd
          ("challenge:" ++ cid) =
        some { c := sha256hex (req.clientR ++ user.public_key_y ++ user.username),
               username := user.username, clientR := req.clientR }) := by
  refine ⟨?_, ?_, ?_, ?_⟩
  · cases hf : findUser db u.username with
    | some w => exact Or.inl (by simp only [register, hf])
    | none => exact Or.inr (by simp only [register, hf])
  · intro hnone
    simp only [register, hnone]
  · cases hf : findUser db req.username with
    | none => exact Or.inl (by simp only [get_challenge, hf])
    | some user =>
      exact Or.inr ⟨ChallengeResponse.mk cid
        (sha256hex (req.clientR ++ user.public_key_y ++ user.username)) pS qS gS,
        by simp only [get_challenge, hf]⟩
  · intro user hfu
    have hsnd : (get_challenge sha256hex pS qS gS cid db store req).snd =
        storeSet store ("challenge:" ++ cid)
          { c := sha256hex (req.clientR ++ user.public_key_y ++ user.username),
            username := user.username, clientR := req.clientR } := by
      simp only [get_challenge, hfu]
    rw [hsnd]
    exact storeGet_storeSet_self store ("challenge:" ++ cid) _

/-- C9: the read and the successful-path delete are separate store
operations (`redis.get` at line 151 and `redis.delete` at line 206 of
`auth.py`, with `await` boundaries between them), so two verify requests
racing on the same challengeId can interleave as read A, read B, finish A,
finish B.  Both reads observe the entry (second conjunct), A's run is the
genuine endpoint run and succeeds (first and third conjuncts), and B,
holding the stale read, still succeeds against the store A left behind
(fourth conjunct): the same valid proof is verified twice against one
challenge entry, refuting the claimed atomicity. -/
theorem C9_nonatomic_consumption :
    verify_proof 23 4 30 0 toyDb toyStore toyReq = (Except.ok toyResp, []) ∧
    storeGet toyStore "challenge:ch1" = some toyEntry ∧
    verify_afterRead 23 4 30 0 toyDb toyStore "challenge:ch1" toyEntry toyReq =
      (Except.ok toyResp, []) ∧
    verify_afterRead 23 4 30 0 toyDb [] "challenge:ch1" toyEntry toyReq =
      (Except.ok toyResp, []) :=
  ⟨rfl, rfl, rfl, rfl⟩


/-- Witness for C2 at the toy scenario: after the successful run consumes
`ch1`, retrying the same request fails with `ChallengeInvalid`. -/
theorem C2_single_use_witness :
    verify_proof 23 4 30 0 toyDb [] toyReq =
      (Except.error AuthError.challengeInvalid, []) :=
  ((C2_single_use 23 4 30 0 toyDb toyStore toyReq).1 toyResp [] rfl).2
    23 4 30 0 toyDb toyReq rfl

/-- Witness for C3: the guarded-equation conjunct evaluated at the toy
scenario (`lhs = 3`, `R = 12`, `Y^c mod p = 6`). -/
theorem C3_uses_stored_challenge_witness :
    (verify_proof 23 4 30 0 toyDb toyStore toyReq).fst =
      (if (3 : Int) != (12 * 6) % (23 : Int)
       then Except.error AuthError.invalidProof
       else Except.ok { token := { sub := "alice", exp := 0 + 86400 },
                        type := "Bearer", expiresIn := 86400 }) :=
  C3_uses_stored_challenge.2.1 23 4 30 0 toyDb toyStore toyReq toyEntry
    aliceUser 4 12 18 7 3 6 rfl rfl rfl rfl rfl rfl rfl rfl rfl

/-- Witness for C4: a non-hexadecimal `s` yields `MalformedInput`. -/
theorem C4_verify_error_taxonomy_witness :
    (verify_proof 23 4 30 0 toyDb toyStore
        { challengeId := "ch1", s := "zz", clientR := "c", username := "alice" }).fst =
      Except.error AuthError.malformedInput :=
  (C4_verify_error_taxonomy 23 4 30 0 toyDb toyStore
      { challengeId := "ch1", s := "zz", clientR := "c", username := "alice" }).2.2.2.2
    toyEntry aliceUser rfl rfl rfl (Or.inl rfl)

/-- Witness for C5 with a concrete hash function and concrete issuance. -/
theorem C5_challenge_derivation_witness :
    (ChallengeResponse.mk "id1" "cc" "pv" "qv" "gv").c =
      (fun _ : String => "cc") ("r1" ++ "12" ++ "alice") :=
  (C5_challenge_derivation (fun _ : String => "cc") "pv" "qv" "gv" "id1"
      toyDb [] { username := "alice", clientR := "r1" } aliceUser
      (ChallengeResponse.mk "id1" "cc" "pv" "qv" "gv")
      [("challenge:id1", { c := "cc", username := "alice", clientR := "r1" })]
      rfl rfl).1

/-- Witness for C7: registering a fresh username appends exactly its record. -/
theorem C7_registration_witness :
    register [] { username := "bob", publicKeyY := "beef", salt := "s1" } =
      (Except.ok { username := "bob", message := "User registered successfully" },
       [] ++ [{ username := "bob", public_key_y := "beef", salt := "s1" }]) :=
  (C7_registration [] { username := "bob", publicKeyY := "beef", salt := "s1" }).2 rfl

/-- Witness for C8: the toy run succeeds identically under a different
configured default expiry (999 minutes instead of 30). -/
theorem C8_token_issuance_witness :
    verify_proof 23 4 999 0 toyDb toyStore toyReq = (Except.ok toyResp, []) :=
  (C8_token_issuance 23 4 30 0 toyDb toyStore toyReq toyResp [] rfl).2.2.2.2 999

/-- Witness for C10: a clearly non-hexadecimal commitment is stored verbatim
by challenge issuance. -/
theorem C10_no_validation_before_verify_witness :
    storeGet (get_challenge (fun _ : String => "hh") "pv" "qv" "gv" "id2" toyDb []
        { username := "alice", clientR := "not hex!" }).snd ("challenge:" ++ "id2") =
      some { c := (fun _ : String => "hh") ("not hex!" ++ "12" ++ "alice"),
             username := "alice", clientR := "not hex!" } :=
  (C10_no_validation_before_verify toyDb
      { username := "bob", publicKeyY := "y", salt := "s" }
      (fun _ : String => "hh") "pv" "qv" "gv" "id2" []
      { username := "alice", clientR := "not hex!" }).2.2.2 aliceUser rfl

end ZKAuth
